import Mathlib

/-!
Shallow embedding of the rule-based financial analysis core of the
stock-analyst repository (`system/agents/finance_agent/tools_config/ticker_tools.py`):
metric extraction (`extract_financial_metrics`), sentiment scoring
(`score_news_sentiment`) and the rule-based decision procedure (`decide_action`).

Python floats are modelled as rationals (ℚ).  A Python value stored in a
mapping or table cell is modelled by `PyVal`: a number, a numeric string
(one that `float()` parses), or a non-numeric string (one on which
`float()` raises).  Fallible Python code is modelled with `Option`/`Except`:
`Except.error` marks an uncaught exception, and the many `try/except`
blocks of the source are modelled by explicit handling of those errors.
Reason strings produced by `decide_action` are modelled by the inductive
`Reason`; each constructor corresponds to one distinct f-string template of
the source, carrying the interpolated numeric value where the template has
one.
-/

namespace StockAnalyst

instance {ε α : Type} [DecidableEq ε] [DecidableEq α] : DecidableEq (Except ε α) := fun a b =>
  match a, b with
  | .error x, .error y =>
    decidable_of_iff (x = y) ⟨by rintro rfl; rfl, fun h => by injection h⟩
  | .error _, .ok _ => isFalse (fun h => by injection h)
  | .ok _, .error _ => isFalse (fun h => by injection h)
  | .ok x, .ok y =>
    decidable_of_iff (x = y) ⟨by rintro rfl; rfl, fun h => by injection h⟩

/-- A scalar Python value as it can occur in the `info` mapping or in a
financial-statement cell: a float/int, a string that `float()` parses to the
given rational, or a string on which `float()` raises `ValueError`. -/
inductive PyVal
  | num (x : ℚ)
  | strNum (x : ℚ)
  | strBad (s : String)
  deriving DecidableEq

/-- Python `float(v)`: `none` models a raised exception. -/
def PyVal.toFloat : PyVal → Option ℚ
  | .num x => some x
  | .strNum x => some x
  | .strBad _ => none

/-- A Python ordered comparison of `v` against a number: strings raise
`TypeError` (`none`); only actual numbers compare. -/
def PyVal.asNum : PyVal → Option ℚ
  | .num x => some x
  | _ => none

/-- Python truthiness: `0`/`0.0` and the empty string are falsy. -/
def PyVal.truthy : PyVal → Bool
  | .num x => if x = 0 then false else true
  | .strNum _ => true
  | .strBad s => if s = "" then false else true

/-- Whether a value is an actual number (a Python float/int). -/
def PyVal.isNum : PyVal → Bool
  | .num _ => true
  | _ => false

/-- Python `v == 0` (used by the `rev_old not in (None, 0)` membership test:
only an actual number equal to zero matches). -/
def PyVal.eqZero : PyVal → Bool
  | .num x => if x = 0 then true else false
  | _ => false

/-- An optional value is a float or `None` (the declared value type of the
metrics mapping, `Dict[str, Optional[float]]`). -/
def numOrNull : Option PyVal → Bool
  | none => true
  | some v => v.isNum

/-- Truthiness of a possibly-missing value (`None` is falsy). -/
def truthyO : Option PyVal → Bool
  | none => false
  | some v => v.truthy

/-- First-match association-list lookup, the model of `dict.get` /
`c in df.index` followed by `df.loc[c]`. -/
def assocLookup {α : Type} : List (String × α) → String → Option α
  | [], _ => none
  | (k, v) :: rest, key => if k = key then some v else assocLookup rest key

/-- A pandas-style two-dimensional statement table: `cols` is `shape[1]`
(number of period columns, most recent first) and `rows` maps a row label to
its list of period values. -/
structure Frame where
  cols : ℕ
  rows : List (String × List PyVal)
  deriving DecidableEq

/-- `DataFrame.empty`: true when either axis has length 0. -/
def Frame.isEmpty (f : Frame) : Bool :=
  f.cols == 0 || f.rows.isEmpty

/-- Every cell of the table is an actual number. -/
def Frame.allNum (f : Frame) : Bool :=
  f.rows.all (fun r => r.2.all PyVal.isNum)

/-- The table is rectangular: every row has exactly `cols` cells. -/
def Frame.rect (f : Frame) : Bool :=
  f.rows.all (fun r => r.2.length == cols f)

/-- `_get_row` / `_get_val` of the source generalised over the column index:
walk an ordered candidate list, and for the first label present in the index
return that row's `iloc[i]`; `Except.error` models an `IndexError` when the
matched row is shorter than `i + 1`, `.ok none` models "no alias matched". -/
def getRowVal (f : Frame) : List String → ℕ → Except Unit (Option PyVal)
  | [], _ => .ok none
  | c :: rest, i =>
    match assocLookup f.rows c with
    | none => getRowVal f rest i
    | some row =>
      match row[i]? with
      | none => .error ()
      | some v => .ok (some v)

/-- Row-label aliases for revenue (`rev_candidates` in the source). -/
def revCandidates : List String := ["Total Revenue", "Revenue", "Revenues"]

/-- Row-label aliases for net income (`net_candidates` in the source). -/
def netCandidates : List String :=
  ["Net Income", "Net Income Applicable To Common Shares", "NetIncomeLoss"]

/-- Row-label aliases for debt (`debt_candidates` in the source). -/
def debtCandidates : List String := ["Long Term Debt", "Total Debt", "Long-term Debt"]

/-- Row-label aliases for equity (`equity_candidates` in the source). -/
def equityCandidates : List String :=
  ["Total Stockholder Equity", "Total Stockholders' Equity", "Total Equity",
   "Stockholders Equity"]

/-- The `rev_old` loop of the source: find the first revenue alias present in
the index, and if the table has at least two columns take that row's
`iloc[1]` (an `IndexError` is `.error`); the loop breaks after the first
matching alias whether or not a value was read. -/
def prevRevenue (f : Frame) : Except Unit (Option PyVal) :=
  match revCandidates.find? (fun c => (assocLookup f.rows c).isSome) with
  | none => .ok none
  | some c =>
    if 2 ≤ f.cols then
      match (assocLookup f.rows c).bind (fun row => row[1]?) with
      | none => .error ()
      | some v => .ok (some v)
    else .ok none

/-- Python `(rev_new - rev_old) / abs(rev_old)`: arithmetic on anything but
two numbers raises `TypeError` (`none`). -/
def pySubDivAbs : PyVal → PyVal → Option ℚ
  | .num a, .num b => some ((a - b) / |b|)
  | _, _ => none

/-- The inner `try` computing `revenue_growth_pct`: guard on at least two
columns, re-read the most recent revenue, read the previous-period revenue,
require the former non-`None` and the latter outside `(None, 0)`, and return
the growth percentage; any exception inside leaves the metric `None`. -/
def revenueGrowth (f : Frame) : Option PyVal :=
  if 2 ≤ f.cols then
    match getRowVal f revCandidates 0 with
    | .error _ => none
    | .ok none => none
    | .ok (some rNew) =>
      match prevRevenue f with
      | .error _ => none
      | .ok none => none
      | .ok (some rOld) =>
        if rOld.eqZero then none
        else
          match pySubDivAbs rNew rOld with
          | none => none
          | some g => some (.num (g * 100))
  else none

/-- `float(v) if v is not None else None`; `.error` models the raised
`ValueError` when the value is a non-numeric string. -/
def optFloat : Option PyVal → Except Unit (Option ℚ)
  | none => .ok none
  | some v =>
    match v.toFloat with
    | none => .error ()
    | some x => .ok (some x)

/-- The financial-statements block of `extract_financial_metrics`, returning
`(revenue, net_income, revenue_growth_pct)`.  The block runs under one outer
`try` whose handler is `pass`, so an exception keeps every assignment made
before it and leaves the remaining metrics `None`: in particular a failing
`float(net)` keeps the already-assigned revenue and skips the growth
computation. -/
def finTriple : Option Frame → Option PyVal × Option PyVal × Option PyVal
  | none => (none, none, none)
  | some f =>
    if f.isEmpty then (none, none, none)
    else
      match getRowVal f revCandidates 0 with
      | .error _ => (none, none, none)
      | .ok rev =>
        match getRowVal f netCandidates 0 with
        | .error _ => (none, none, none)
        | .ok net =>
          match optFloat rev with
          | .error _ => (none, none, none)
          | .ok revenue =>
            match optFloat net with
            | .error _ => (revenue.map PyVal.num, none, none)
            | .ok netIncome =>
              (revenue.map PyVal.num, netIncome.map PyVal.num, revenueGrowth f)

/-- `total_debt / total_equity` guarded by
`total_debt is not None and total_equity not in (None, 0)` — both operands
are already floats when this runs. -/
def d2eOf (debt equity : Option ℚ) : Option PyVal :=
  match debt, equity with
  | some a, some e => if e = 0 then none else some (.num (a / e))
  | _, _ => none

/-- The balance-sheet block of `extract_financial_metrics`, returning
`(total_debt, total_equity, debt_to_equity)` with the same
exception-keeps-earlier-assignments behaviour; `debt_to_equity` is computed
only when debt is non-`None` and equity is outside `(None, 0)`. -/
def balTriple : Option Frame → Option PyVal × Option PyVal × Option PyVal
  | none => (none, none, none)
  | some b =>
    if b.isEmpty then (none, none, none)
    else
      match getRowVal b debtCandidates 0 with
      | .error _ => (none, none, none)
      | .ok td =>
        match getRowVal b equityCandidates 0 with
        | .error _ => (none, none, none)
        | .ok te =>
          match optFloat td with
          | .error _ => (none, none, none)
          | .ok debt =>
            match optFloat te with
            | .error _ => (debt.map PyVal.num, none, none)
            | .ok equity =>
              (debt.map PyVal.num, equity.map PyVal.num, d2eOf debt equity)

/-- The `info`-fallback branch of the current-price lookup:
`float(info.get("currentPrice")) if info.get("currentPrice") else None`,
with the surrounding `except` turning a failed `float()` into `None`. -/
def priceFromInfo (info : List (String × PyVal)) : Option PyVal :=
  match assocLookup info "currentPrice" with
  | none => none
  | some v => if v.truthy then (v.toFloat).map PyVal.num else none

/-- The current-price block: most recent close from the price history when it
is present and non-empty, else the `info` fallback; any exception inside the
block yields `None`. -/
def currentPrice (hist : Option (List PyVal)) (info : List (String × PyVal)) :
    Option PyVal :=
  match hist with
  | some l =>
    if l.isEmpty then priceFromInfo info
    else
      match l.getLast? with
      | none => none
      | some v => (v.toFloat).map PyVal.num
  | none => priceFromInfo info

/-- The input record assembled by `fetch_company_data`: the fields
`extract_financial_metrics` reads, with the price history reduced to its
`Close` column. -/
structure CompanyData where
  symbol : String
  company : String
  info : List (String × PyVal)
  financials : Option Frame
  balance_sheet : Option Frame
  history : Option (List PyVal)

/-- The fixed-key metrics mapping returned by `extract_financial_metrics`.
The ten fields are exactly the ten keys the source initialises; a field
holds `none` for Python `None`. -/
structure Metrics where
  current_price : Option PyVal
  trailing_pe : Option PyVal
  forward_pe : Option PyVal
  market_cap : Option PyVal
  revenue : Option PyVal
  net_income : Option PyVal
  revenue_growth_pct : Option PyVal
  total_debt : Option PyVal
  total_equity : Option PyVal
  debt_to_equity : Option PyVal
  deriving DecidableEq

/-- `extract_financial_metrics` of the source.  It is a total function: every
fallible step of the source sits under a `try` whose handler substitutes
`None` (or keeps the already-assigned values), so extraction never raises. -/
def extract_financial_metrics (d : CompanyData) : Metrics :=
  { current_price := currentPrice d.history d.info
    trailing_pe := assocLookup d.info "trailingPE"
    forward_pe := assocLookup d.info "forwardPE"
    market_cap := assocLookup d.info "marketCap"
    revenue := (finTriple d.financials).1
    net_income := (finTriple d.financials).2.1
    revenue_growth_pct := (finTriple d.financials).2.2
    total_debt := (balTriple d.balance_sheet).1
    total_equity := (balTriple d.balance_sheet).2.1
    debt_to_equity := (balTriple d.balance_sheet).2.2 }

/-- The fallback positive lexicon `POS` of `score_news_sentiment`. -/
def POS : List String :=
  ["good", "great", "positive", "beat", "beats", "up", "gain", "gains",
   "growth", "strong", "profit", "outperform"]

/-- The fallback negative lexicon `NEG` of `score_news_sentiment`. -/
def NEG : List String :=
  ["bad", "worse", "miss", "missed", "down", "loss", "losses", "weak",
   "decline", "fall", "cut", "warn"]

/-- The punctuation characters stripped from both ends of each token,
exactly the argument of `w.strip(".,!?:;()[]\"'")`. -/
def stripSet : List Char :=
  ['.', ',', '!', '?', ':', ';', '(', ')', '[', ']', Char.ofNat 34, Char.ofNat 39]

/-- `w.strip(".,!?:;()[]\"'")` on the character list of a token. -/
def stripPunct (w : List Char) : List Char :=
  ((w.dropWhile (· ∈ stripSet)).reverse.dropWhile (· ∈ stripSet)).reverse

/-- ASCII `str.lower()` on one character. -/
def lowerChar (c : Char) : Char :=
  if c.toNat < 65 then c
  else if c.toNat ≤ 90 then Char.ofNat (c.toNat + 32) else c

/-- Python `str.split()`: split on runs of whitespace, discarding empty
pieces; `acc` holds the characters of the current word in reverse. -/
def splitWsAux : List Char → List Char → List String
  | [], acc => if acc.isEmpty then [] else [String.mk acc.reverse]
  | c :: cs, acc =>
    if c.isWhitespace then
      if acc.isEmpty then splitWsAux cs []
      else String.mk acc.reverse :: splitWsAux cs []
    else splitWsAux cs (c :: acc)

/-- `h.split()` on a headline. -/
def splitWs (h : String) : List String := splitWsAux h.toList []

/-- `set(w.strip(".,!?:;()[]\"'").lower() for w in h.split())`: the distinct
stripped, lowercased tokens of a headline. -/
def tokensOf (h : String) : List String :=
  ((splitWs h).map (fun w => String.mk ((stripPunct w.toList).map lowerChar))).dedup

/-- `(len(words & POS), len(words & NEG))` for one headline. -/
def headlineHits (h : String) : ℕ × ℕ :=
  let ts := tokensOf h
  (ts.countP (fun t => decide (t ∈ POS)), ts.countP (fun t => decide (t ∈ NEG)))

/-- The fallback accumulation loop: running `(total, count)` over the
headlines, where a headline with at least one lexicon hit on either side
contributes `(pos - neg) / (pos + neg)` and is counted, and a headline with
no hits is skipped. -/
def fallbackAux : List String → ℚ × ℕ
  | [] => (0, 0)
  | h :: rest =>
    if (headlineHits h).1 + (headlineHits h).2 = 0 then fallbackAux rest
    else
      ((fallbackAux rest).1 + (((headlineHits h).1 : ℚ) - ((headlineHits h).2 : ℚ)) /
        (((headlineHits h).1 : ℚ) + ((headlineHits h).2 : ℚ)), (fallbackAux rest).2 + 1)

/-- `score_news_sentiment` of the source.  The primary analyzer (the
vaderSentiment library) is external to the repository, so it is abstracted
as an optional compound-score function: `some a` models the library being
importable with `a h` the compound score of headline `h`, and `none` selects
the fallback lexicon path that runs when the import raises. -/
def score_news_sentiment (analyzer : Option (String → ℚ))
    (headlines : List String) : ℚ :=
  match analyzer with
  | some a =>
    if headlines.isEmpty then 0
    else
      if ((headlines.filter (fun h => h ≠ "")).map a).isEmpty then 0
      else ((headlines.filter (fun h => h ≠ "")).map a).sum /
        ((((headlines.filter (fun h => h ≠ "")).map a).length : ℕ) : ℚ)
  | none =>
    if headlines.isEmpty then 0
    else
      if (fallbackAux headlines).2 = 0 then 0
      else (fallbackAux headlines).1 / (((fallbackAux headlines).2 : ℕ) : ℚ)

/-- One reason string of `decide_action`; each constructor is one distinct
f-string template of the source, carrying the interpolated number where the
template has one. -/
inductive Reason
  | posNetIncome
  | negNetIncome
  | netIncomeUnavailable
  | revenueGrowth (rg : ℚ)
  | revenueDecline (rg : ℚ)
  | revenueGrowthMuted (rg : ℚ)
  | revenueGrowthUnavailable
  | lowLeverage (de : ℚ)
  | highLeverage (de : ℚ)
  | moderateLeverage (de : ℚ)
  | debtEquityUnavailable
  | positiveSentiment (s : ℚ)
  | negativeSentiment (s : ℚ)
  | neutralSentiment (s : ℚ)
  | lowPE (pe : ℚ)
  | highPE (pe : ℚ)
  | peInRange (pe : ℚ)
  | peParsingError
  | peUnavailable
  deriving DecidableEq

/-- The result record of `decide_action`. -/
structure Verdict where
  verdict : String
  score : ℤ
  pos_signals : ℕ
  neg_signals : ℕ
  reasons : List Reason
  script : String
  deriving DecidableEq

/-- The metrics argument of `decide_action` (`Dict[str, Any]`), modelled
extensionally: `m k` is the value stored under key `k`, with `none` for both
a missing key and a stored `None` (indistinguishable through `dict.get`). -/
def MMap : Type := String → Option PyVal

/-- The thresholds mapping (`Dict[str, float]`). -/
def ThMap : Type := List (String × ℚ)

/-- The default thresholds installed when `decide_action` is called with
`thresholds=None`. -/
def defaultThresholds : ThMap :=
  [("revenue_growth_good_pct", 5), ("revenue_growth_bad_pct", -5),
   ("debt_to_equity_good", 1), ("debt_to_equity_bad", 2),
   ("sentiment_good", 3/20), ("sentiment_bad", -(3/20)),
   ("pe_low", 15), ("pe_high", 40)]

/-- `thresholds[k]`: a missing key raises `KeyError`. -/
def lookupTh (th : ThMap) (k : String) : Except String ℚ :=
  match assocLookup th k with
  | none => .error ("KeyError: " ++ k)
  | some x => .ok x

/-- The net-income signal: a present value compares against `0` (a string
raises `TypeError`), an absent value contributes no count. -/
def signalNI (m : MMap) : Except String (ℕ × ℕ × Reason) :=
  match m "net_income" with
  | none => .ok (0, 0, .netIncomeUnavailable)
  | some v =>
    match v.asNum with
    | none => .error "TypeError"
    | some x =>
      if 0 < x then .ok (1, 0, .posNetIncome) else .ok (0, 1, .negNetIncome)

/-- The revenue-growth signal.  Mirroring Python evaluation order, the good
threshold is subscripted before the comparison can raise `TypeError`, and
the bad threshold is subscripted only when the first comparison is false. -/
def signalRG (m : MMap) (th : ThMap) : Except String (ℕ × ℕ × Reason) :=
  match m "revenue_growth_pct" with
  | none => .ok (0, 0, .revenueGrowthUnavailable)
  | some v =>
    match lookupTh th "revenue_growth_good_pct" with
    | .error e => .error e
    | .ok good =>
      match v.asNum with
      | none => .error "TypeError"
      | some x =>
        if good < x then .ok (1, 0, .revenueGrowth x)
        else
          match lookupTh th "revenue_growth_bad_pct" with
          | .error e => .error e
          | .ok bad =>
            if x < bad then .ok (0, 1, .revenueDecline x)
            else .ok (0, 0, .revenueGrowthMuted x)

/-- The debt-to-equity signal, with the same structure as the
revenue-growth signal. -/
def signalDE (m : MMap) (th : ThMap) : Except String (ℕ × ℕ × Reason) :=
  match m "debt_to_equity" with
  | none => .ok (0, 0, .debtEquityUnavailable)
  | some v =>
    match lookupTh th "debt_to_equity_good" with
    | .error e => .error e
    | .ok good =>
      match v.asNum with
      | none => .error "TypeError"
      | some x =>
        if x < good then .ok (1, 0, .lowLeverage x)
        else
          match lookupTh th "debt_to_equity_bad" with
          | .error e => .error e
          | .ok bad =>
            if bad < x then .ok (0, 1, .highLeverage x)
            else .ok (0, 0, .moderateLeverage x)

/-- The sentiment signal: the score is always a float, so only a missing
threshold key can raise. -/
def signalSent (s : ℚ) (th : ThMap) : Except String (ℕ × ℕ × Reason) :=
  match lookupTh th "sentiment_good" with
  | .error e => .error e
  | .ok good =>
    if good < s then .ok (1, 0, .positiveSentiment s)
    else
      match lookupTh th "sentiment_bad" with
      | .error e => .error e
      | .ok bad =>
        if s < bad then .ok (0, 1, .negativeSentiment s)
        else .ok (0, 0, .neutralSentiment s)

/-- The body of the P/E `try` block applied to the selected P/E value:
`float(pe)` and both threshold subscripts run inside the `try`, so a
non-numeric value or a missing `pe_low`/`pe_high` key is caught and becomes
the "PE parsing error" reason; a missing value is the distinct
"PE unavailable" reason and never enters the `try`. -/
def peEval (pe : Option PyVal) (th : ThMap) : ℕ × ℕ × Reason :=
  match pe with
  | none => (0, 0, .peUnavailable)
  | some v =>
    match v.toFloat with
    | none => (0, 0, .peParsingError)
    | some x =>
      match lookupTh th "pe_low" with
      | .error _ => (0, 0, .peParsingError)
      | .ok lo =>
        if x < lo then (1, 0, .lowPE x)
        else
          match lookupTh th "pe_high" with
          | .error _ => (0, 0, .peParsingError)
          | .ok hi =>
            if hi < x then (0, 1, .highPE x) else (0, 0, .peInRange x)

/-- The P/E signal: `pe = metrics.get("trailing_pe") or metrics.get("forward_pe")`
— Python `or` selects the trailing value when it is truthy and otherwise
falls through to the forward value, so a trailing P/E of `0.0` is skipped
exactly like an absent one. -/
def signalPE (m : MMap) (th : ThMap) : ℕ × ℕ × Reason :=
  peEval (if truthyO (m "trailing_pe") then m "trailing_pe" else m "forward_pe") th

/-- The tail of `decide_action` once all five signals have evaluated without
an uncaught exception: sum the positive and negative counts in signal order,
set `score = pos - neg`, and derive the verdict (`score >= 2` BUY,
`score <= -2` SELL, else HOLD), collecting the five reasons in evaluation
order. -/
def combineSignals (t1 t2 t3 t4 t5 : ℕ × ℕ × Reason) (script : String) : Verdict :=
  let pos := t1.1 + t2.1 + t3.1 + t4.1 + t5.1
  let neg := t1.2.1 + t2.2.1 + t3.2.1 + t4.2.1 + t5.2.1
  let score : ℤ := (pos : ℤ) - (neg : ℤ)
  { verdict := if 2 ≤ score then "BUY" else if score ≤ -2 then "SELL" else "HOLD"
    score := score
    pos_signals := pos
    neg_signals := neg
    reasons := [t1.2.2, t2.2.2, t3.2.2, t4.2.2, t5.2.2]
    script := script }

/-- `decide_action` of the source: evaluate the five signals in order,
stopping at the first uncaught exception, then combine them into the
verdict. -/
def decide_action (m : MMap) (s : ℚ) (script : String)
    (thresholds : Option ThMap) : Except String Verdict :=
  let th := thresholds.getD defaultThresholds
  match signalNI m with
  | .error e => .error e
  | .ok t1 =>
    match signalRG m th with
    | .error e => .error e
    | .ok t2 =>
      match signalDE m th with
      | .error e => .error e
      | .ok t3 =>
        match signalSent s th with
        | .error e => .error e
        | .ok t4 => .ok (combineSignals t1 t2 t3 t4 (signalPE m th) script)

/-- A metrics mapping holding the five keys `decide_action` reads (every
other key absent), used to build concrete inputs. -/
def mkM (ni rg de tp fp : Option PyVal) : MMap := fun k =>
  if k = "net_income" then ni
  else if k = "revenue_growth_pct" then rg
  else if k = "debt_to_equity" then de
  else if k = "trailing_pe" then tp
  else if k = "forward_pe" then fp
  else none

/-- The 8 threshold keys read by `decide_action`. -/
def thresholdKeys : List String :=
  ["revenue_growth_good_pct", "revenue_growth_bad_pct", "debt_to_equity_good",
   "debt_to_equity_bad", "sentiment_good", "sentiment_bad", "pe_low", "pe_high"]

/-- The default thresholds with only `sentiment_good` changed (to `0.5`). -/
def sentOverride : ThMap :=
  [("revenue_growth_good_pct", 5), ("revenue_growth_bad_pct", -5),
   ("debt_to_equity_good", 1), ("debt_to_equity_bad", 2),
   ("sentiment_good", 1/2), ("sentiment_bad", -(3/20)),
   ("pe_low", 15), ("pe_high", 40)]

/-- A metrics mapping satisfying every BUY-side hypothesis of the spec's
all-positive property, except that its (non-null) trailing P/E is `0.0`:
net income `1 > 0`, growth `10 > 5`, leverage `0.5 < 1`, trailing P/E
`0 < 15`, no forward P/E. -/
def zeroTrailingM : MMap :=
  mkM (some (.num 1)) (some (.num 10)) (some (.num (1/2))) (some (.num 0)) none

/-- Metrics with trailing P/E `0.0` (present, non-null) and forward P/E
`50`. -/
def zeroTrailingFwdM : MMap :=
  mkM none none none (some (.num 0)) (some (.num 50))

/-- A two-period financials table whose revenue row is numeric
(`10` most recent, `5` previous) but whose net-income cell is a non-numeric
string, so `float(net)` raises after revenue is assigned and before the
growth computation runs. -/
def badNetFrame : Frame :=
  ⟨2, [("Total Revenue", [.num 10, .num 5]), ("Net Income", [.strBad "x", .num 1])]⟩

/-- Company data wrapping `badNetFrame`. -/
def badNetData : CompanyData := ⟨"X", "X", [], some badNetFrame, none, none⟩

/-- Company data whose `info` stores a non-numeric string under
`trailingPE`. -/
def strPeData : CompanyData :=
  ⟨"X", "X", [("trailingPE", .strBad "n/a")], none, none, none⟩

/-- Company data with every optional field absent. -/
def emptyData : CompanyData := ⟨"X", "X", [], none, none, none⟩

/-- Company data with no history and a `currentPrice` of exactly `0`. -/
def zeroPriceData : CompanyData :=
  ⟨"X", "X", [("currentPrice", .num 0)], none, none, none⟩

end StockAnalyst

namespace StockAnalyst

/-- The property relating the three balance-sheet outputs: `debt_to_equity`
is null whenever debt is null, equity is null or equity is zero, and equals
`debt / equity` otherwise. -/
def D2EProp (t : Option PyVal × Option PyVal × Option PyVal) : Prop :=
  (t.1 = none → t.2.2 = none) ∧ (t.2.1 = none → t.2.2 = none) ∧
  (∀ e : ℚ, t.2.1 = some (.num e) → e = 0 → t.2.2 = none) ∧
  (∀ a e : ℚ, t.1 = some (.num a) → t.2.1 = some (.num e) → e ≠ 0 →
    t.2.2 = some (.num (a / e)))

/-- A well-formed two-period numeric financials table: revenue `12` most
recent, `10` previous. -/
def growFrame : Frame :=
  ⟨2, [("Total Revenue", [.num 12, .num 10]), ("Net Income", [.num 3, .num 2])]⟩

/-- Company data wrapping `growFrame`. -/
def growData : CompanyData := ⟨"X", "X", [], some growFrame, none, none⟩

lemma numOrNull_map (x : Option ℚ) : numOrNull (x.map PyVal.num) = true := by
  cases x <;> rfl

lemma priceFromInfo_numOrNull (i : List (String × PyVal)) :
    numOrNull (priceFromInfo i) = true := by
  unfold priceFromInfo
  cases hpi : assocLookup i "currentPrice" with
  | none => rfl
  | some v =>
    cases hv : v.truthy
    · simp [hv, numOrNull]
    · cases hf : v.toFloat <;> simp [hv, hf, numOrNull, PyVal.isNum]

lemma currentPrice_numOrNull (h : Option (List PyVal)) (i : List (String × PyVal)) :
    numOrNull (currentPrice h i) = true := by
  unfold currentPrice
  cases h with
  | none => exact priceFromInfo_numOrNull i
  | some l =>
    cases hl : l.isEmpty
    · cases hg : l.getLast? with
      | none => simp [hl, hg, numOrNull]
      | some v => cases hf : v.toFloat <;> simp [hl, hg, hf, numOrNull, PyVal.isNum]
    · simp [hl, priceFromInfo_numOrNull i]

/-- C7: on the fallback path, score_news_sentiment tokenizes each headline
into lowercase punctuation-stripped words, scores each headline with a hit
as (pos - neg)/(pos + neg), skips hitless headlines and averages; in
particular it returns 1.0 on ["Great growth"], -1.0 on ["bad loss"] and 0.0
on ["neutral news here"]. -/
theorem C7_theorem :
    score_news_sentiment none ["Great growth"] = 1 ∧
    score_news_sentiment none ["bad loss"] = -1 ∧
    score_news_sentiment none ["neutral news here"] = 0 := by
  refine ⟨?_, ?_, ?_⟩ <;> with_unfolding_all decide

/-- C10: when the price history is absent or empty and the info mapping
stores a falsy value (such as 0) under currentPrice, extraction returns a
null current_price — a reported price of exactly zero is treated the same
as an absent price. -/
theorem C10_theorem (d : CompanyData) (v : PyVal)
    (hh : d.history = none ∨ d.history = some [])
    (hv : assocLookup d.info "currentPrice" = some v)
    (ht : v.truthy = false) :
    (extract_financial_metrics d).current_price = none := by
  have hcp : (extract_financial_metrics d).current_price = currentPrice d.history d.info := rfl
  have hpi : priceFromInfo d.info = none := by
    unfold priceFromInfo
    rw [hv]
    simp [ht]
  rw [hcp]
  rcases hh with h | h <;> rw [h] <;> simp [currentPrice, hpi]

/-- C10 witness: concrete data with currentPrice 0 and no history. -/
theorem C10_witness : (extract_financial_metrics zeroPriceData).current_price = none :=
  C10_theorem zeroPriceData (.num 0) (Or.inl rfl) (by with_unfolding_all decide)
    (by with_unfolding_all decide)

/-- C2: on company data whose financials table, balance sheet and price
history are each empty or absent, extraction returns normally (the
embedding is a total function, mirroring the catch-all handlers) and
revenue, net_income, revenue_growth_pct, total_debt, total_equity and
debt_to_equity are all null. -/
theorem C2_theorem (d : CompanyData)
    (hf : ∀ f, d.financials = some f → f.isEmpty = true)
    (hb : ∀ f, d.balance_sheet = some f → f.isEmpty = true)
    (hh : d.history = none ∨ d.history = some []) :
    (extract_financial_metrics d).revenue = none ∧
    (extract_financial_metrics d).net_income = none ∧
    (extract_financial_metrics d).revenue_growth_pct = none ∧
    (extract_financial_metrics d).total_debt = none ∧
    (extract_financial_metrics d).total_equity = none ∧
    (extract_financial_metrics d).debt_to_equity = none := by
  have hfin : finTriple d.financials = (none, none, none) := by
    cases hd : d.financials with
    | none => rfl
    | some f => simp [finTriple, hf f hd]
  have hbal : balTriple d.balance_sheet = (none, none, none) := by
    cases hd : d.balance_sheet with
    | none => rfl
    | some f => simp [balTriple, hb f hd]
  refine ⟨?_, ?_, ?_, ?_, ?_, ?_⟩ <;> simp [extract_financial_metrics, hfin, hbal]

/-- C2 witness: company data with every optional field absent. -/
theorem C2_witness :
    (extract_financial_metrics emptyData).revenue = none ∧
    (extract_financial_metrics emptyData).net_income = none ∧
    (extract_financial_metrics emptyData).revenue_growth_pct = none ∧
    (extract_financial_metrics emptyData).total_debt = none ∧
    (extract_financial_metrics emptyData).total_equity = none ∧
    (extract_financial_metrics emptyData).debt_to_equity = none :=
  C2_theorem emptyData (fun _ h => nomatch h) (fun _ h => nomatch h) (Or.inl rfl)

end StockAnalyst

namespace StockAnalyst

lemma revenueGrowth_numOrNull (f : Frame) : numOrNull (revenueGrowth f) = true := by
  unfold revenueGrowth
  repeat first | rfl | split

lemma d2eOf_numOrNull (debt equity : Option ℚ) : numOrNull (d2eOf debt equity) = true := by
  unfold d2eOf
  split
  · split <;> rfl
  · rfl

lemma finTriple_shape (f? : Option Frame) :
    numOrNull (finTriple f?).1 = true ∧ numOrNull (finTriple f?).2.1 = true ∧
    numOrNull (finTriple f?).2.2 = true := by
  cases f? with
  | none => exact ⟨rfl, rfl, rfl⟩
  | some f =>
    unfold finTriple
    repeat first
      | exact ⟨rfl, rfl, rfl⟩
      | exact ⟨numOrNull_map _, rfl, rfl⟩
      | exact ⟨numOrNull_map _, numOrNull_map _, revenueGrowth_numOrNull _⟩
      | split

lemma balTriple_shape (b? : Option Frame) :
    numOrNull (balTriple b?).1 = true ∧ numOrNull (balTriple b?).2.1 = true ∧
    numOrNull (balTriple b?).2.2 = true := by
  cases b? with
  | none => exact ⟨rfl, rfl, rfl⟩
  | some b =>
    unfold balTriple
    repeat first
      | exact ⟨rfl, rfl, rfl⟩
      | exact ⟨numOrNull_map _, rfl, rfl⟩
      | exact ⟨numOrNull_map _, numOrNull_map _, d2eOf_numOrNull _ _⟩
      | split

/-- C6 counterexample: an info mapping holding a non-numeric string under
trailingPE is passed through unchanged, so the returned trailing_pe is
neither a float nor null. -/
theorem C6_counterexample :
    (extract_financial_metrics strPeData).trailing_pe = some (.strBad "n/a") ∧
    numOrNull (extract_financial_metrics strPeData).trailing_pe = false := by
  refine ⟨?_, ?_⟩ <;> with_unfolding_all decide

/-- C6 (amended): the metrics record has exactly the ten fixed keys (by
construction); the seven computed values are floats or null, and
trailing_pe, forward_pe and market_cap equal the info mapping's entries
unchanged (null if absent) — hence floats-or-null only when info holds
numbers there. -/
theorem C6_theorem (d : CompanyData) :
    numOrNull (extract_financial_metrics d).current_price = true ∧
    numOrNull (extract_financial_metrics d).revenue = true ∧
    numOrNull (extract_financial_metrics d).net_income = true ∧
    numOrNull (extract_financial_metrics d).revenue_growth_pct = true ∧
    numOrNull (extract_financial_metrics d).total_debt = true ∧
    numOrNull (extract_financial_metrics d).total_equity = true ∧
    numOrNull (extract_financial_metrics d).debt_to_equity = true ∧
    (extract_financial_metrics d).trailing_pe = assocLookup d.info "trailingPE" ∧
    (extract_financial_metrics d).forward_pe = assocLookup d.info "forwardPE" ∧
    (extract_financial_metrics d).market_cap = assocLookup d.info "marketCap" := by
  obtain ⟨h1, h2, h3⟩ := finTriple_shape d.financials
  obtain ⟨h4, h5, h6⟩ := balTriple_shape d.balance_sheet
  exact ⟨currentPrice_numOrNull _ _, h1, h2, h3, h4, h5, h6, rfl, rfl, rfl⟩

end StockAnalyst

namespace StockAnalyst

/-- C1 (amended): with default thresholds, metrics having positive net
income, revenue growth above 5, debt-to-equity below 1 and a non-null,
non-zero trailing P/E below 15, together with sentiment above 0.15, yield
BUY with score 5, pos_signals 5, neg_signals 0; the symmetric all-negative
case (net income <= 0, growth < -5, leverage > 2, trailing P/E > 40,
sentiment < -0.15) yields SELL with score -5. -/
theorem C1_theorem (m mS : MMap) (ni rg de pe niS rgS deS peS s sS : ℚ) (scr : String)
    (h1 : m "net_income" = some (.num ni)) (h2 : 0 < ni)
    (h3 : m "revenue_growth_pct" = some (.num rg)) (h4 : 5 < rg)
    (h5 : m "debt_to_equity" = some (.num de)) (h6 : de < 1)
    (h7 : m "trailing_pe" = some (.num pe)) (h8 : pe < 15) (h9 : pe ≠ 0)
    (h10 : 3/20 < s)
    (g1 : mS "net_income" = some (.num niS)) (g2 : niS ≤ 0)
    (g3 : mS "revenue_growth_pct" = some (.num rgS)) (g4 : rgS < -5)
    (g5 : mS "debt_to_equity" = some (.num deS)) (g6 : 2 < deS)
    (g7 : mS "trailing_pe" = some (.num peS)) (g8 : 40 < peS)
    (g9 : sS < -(3/20)) :
    (decide_action m s scr none).map
      (fun v => (v.verdict, v.score, v.pos_signals, v.neg_signals)) =
      .ok ("BUY", 5, 5, 0) ∧
    (decide_action mS sS scr none).map
      (fun v => (v.verdict, v.score, v.pos_signals, v.neg_signals)) =
      .ok ("SELL", -5, 0, 5) := by
  have lkRG : lookupTh defaultThresholds "revenue_growth_good_pct" = .ok 5 := rfl
  have lkRGb : lookupTh defaultThresholds "revenue_growth_bad_pct" = .ok (-5) := rfl
  have lkDE : lookupTh defaultThresholds "debt_to_equity_good" = .ok 1 := rfl
  have lkDEb : lookupTh defaultThresholds "debt_to_equity_bad" = .ok 2 := rfl
  have lkS : lookupTh defaultThresholds "sentiment_good" = .ok (3/20) := rfl
  have lkSb : lookupTh defaultThresholds "sentiment_bad" = .ok (-(3/20)) := rfl
  have lkP : lookupTh defaultThresholds "pe_low" = .ok 15 := rfl
  have lkPh : lookupTh defaultThresholds "pe_high" = .ok 40 := rfl
  constructor
  · have e1 : signalNI m = .ok (1, 0, .posNetIncome) := by
      unfold signalNI; rw [h1]; simp [PyVal.asNum, h2]
    have e2 : signalRG m defaultThresholds = .ok (1, 0, .revenueGrowth rg) := by
      unfold signalRG; rw [h3]; simp [lkRG, PyVal.asNum, h4]
    have e3 : signalDE m defaultThresholds = .ok (1, 0, .lowLeverage de) := by
      unfold signalDE; rw [h5]; simp [lkDE, PyVal.asNum, h6]
    have e4 : signalSent s defaultThresholds = .ok (1, 0, .positiveSentiment s) := by
      unfold signalSent; simp [lkS, h10]
    have e5 : signalPE m defaultThresholds = (1, 0, .lowPE pe) := by
      unfold signalPE
      rw [h7]
      rw [show (if truthyO (some (PyVal.num pe)) = true then some (PyVal.num pe)
          else m "forward_pe") = some (PyVal.num pe) by simp [truthyO, PyVal.truthy, h9]]
      unfold peEval
      simp [PyVal.toFloat, lkP, h8]
    simp [decide_action, e1, e2, e3, e4, e5, combineSignals, Except.map]
  · have hpeS0 : peS ≠ 0 := ne_of_gt (by linarith)
    have e1 : signalNI mS = .ok (0, 1, .negNetIncome) := by
      unfold signalNI; rw [g1]; simp [PyVal.asNum, not_lt.mpr g2]
    have e2 : signalRG mS defaultThresholds = .ok (0, 1, .revenueDecline rgS) := by
      unfold signalRG; rw [g3]
      simp [lkRG, lkRGb, PyVal.asNum, g4, show ¬ (5:ℚ) < rgS by linarith]
    have e3 : signalDE mS defaultThresholds = .ok (0, 1, .highLeverage deS) := by
      unfold signalDE; rw [g5]
      simp [lkDE, lkDEb, PyVal.asNum, g6, show ¬ deS < (1:ℚ) by linarith]
    have e4 : signalSent sS defaultThresholds = .ok (0, 1, .negativeSentiment sS) := by
      unfold signalSent
      simp [lkS, lkSb, g9, show ¬ (3:ℚ)/20 < sS by linarith]
    have e5 : signalPE mS defaultThresholds = (0, 1, .highPE peS) := by
      unfold signalPE
      rw [g7]
      rw [show (if truthyO (some (PyVal.num peS)) = true then some (PyVal.num peS)
          else mS "forward_pe") = some (PyVal.num peS) by simp [truthyO, PyVal.truthy, hpeS0]]
      unfold peEval
      simp [PyVal.toFloat, lkP, lkPh, g8, show ¬ peS < (15:ℚ) by linarith]
    simp [decide_action, e1, e2, e3, e4, e5, combineSignals, Except.map]

/-- C1 counterexample: with a non-null trailing P/E of exactly 0.0 (falsy,
so the P/E signal falls through to the absent forward P/E) the result is
BUY with score 4 and pos_signals 4, not the claimed score 5 / pos 5. -/
theorem C1_counterexample :
    (decide_action zeroTrailingM (1/5) "" none).map
      (fun v => (v.verdict, v.score, v.pos_signals, v.neg_signals)) =
      .ok ("BUY", 4, 4, 0) ∧
    (("BUY", (4:ℤ), (4:ℕ), (0:ℕ)) ≠ ("BUY", (5:ℤ), (5:ℕ), (0:ℕ))) := by
  refine ⟨by with_unfolding_all decide, by decide⟩

/-- C1 witness: concrete BUY and SELL instantiations. -/
theorem C1_witness :
    (decide_action (mkM (some (.num 1)) (some (.num 10)) (some (.num (1/2)))
        (some (.num 10)) none) (1/5) "" none).map
      (fun v => (v.verdict, v.score, v.pos_signals, v.neg_signals)) =
      .ok ("BUY", 5, 5, 0) ∧
    (decide_action (mkM (some (.num 0)) (some (.num (-10))) (some (.num 3))
        (some (.num 50)) none) (-(1/5)) "" none).map
      (fun v => (v.verdict, v.score, v.pos_signals, v.neg_signals)) =
      .ok ("SELL", -5, 0, 5) :=
  C1_theorem _ _ 1 10 (1/2) 10 0 (-10) 3 50 (1/5) (-(1/5)) ""
    (by with_unfolding_all decide) (by norm_num)
    (by with_unfolding_all decide) (by norm_num)
    (by with_unfolding_all decide) (by norm_num)
    (by with_unfolding_all decide) (by norm_num) (by norm_num)
    (by norm_num)
    (by with_unfolding_all decide) (by norm_num)
    (by with_unfolding_all decide) (by norm_num)
    (by with_unfolding_all decide) (by norm_num)
    (by with_unfolding_all decide) (by norm_num)
    (by norm_num)

end StockAnalyst

namespace StockAnalyst

/-- C4 (amended): the P/E signal evaluates trailing_pe whenever it is
truthy (present and non-zero) and consults forward_pe when trailing_pe is
absent (or falsy); a value below pe_low adds one positive signal, above
pe_high one negative, in range none; an absent value and an unparseable
value add none, with the distinct reasons "PE unavailable" versus
"PE parsing error". -/
theorem C4_theorem (m : MMap) (th : ThMap) (lo hi x : ℚ) (v : PyVal) (s' : String)
    (hlo : lookupTh th "pe_low" = .ok lo) (hhi : lookupTh th "pe_high" = .ok hi) :
    (m "trailing_pe" = some v → v.truthy = true → signalPE m th = peEval (some v) th) ∧
    (m "trailing_pe" = none → signalPE m th = peEval (m "forward_pe") th) ∧
    (x < lo → peEval (some (.num x)) th = (1, 0, .lowPE x)) ∧
    (¬ x < lo → hi < x → peEval (some (.num x)) th = (0, 1, .highPE x)) ∧
    (¬ x < lo → ¬ hi < x → peEval (some (.num x)) th = (0, 0, .peInRange x)) ∧
    peEval none th = (0, 0, .peUnavailable) ∧
    peEval (some (.strBad s')) th = (0, 0, .peParsingError) ∧
    Reason.peUnavailable ≠ Reason.peParsingError := by
  refine ⟨?_, ?_, ?_, ?_, ?_, rfl, rfl, by decide⟩
  · intro hm ht
    unfold signalPE
    rw [hm]
    simp [truthyO, ht]
  · intro hm
    unfold signalPE
    rw [hm]
    simp [truthyO]
  · intro hx
    unfold peEval
    simp [PyVal.toFloat, hlo, hx]
  · intro hx1 hx2
    unfold peEval
    simp [PyVal.toFloat, hlo, hhi, hx1, hx2]
  · intro hx1 hx2
    unfold peEval
    simp [PyVal.toFloat, hlo, hhi, hx1, hx2]

/-- C4 counterexample: with trailing_pe present but equal to 0.0 and
forward_pe 50, the signal is evaluated on the forward value (high PE,
negative), not on the trailing value as the claim requires. -/
theorem C4_counterexample :
    zeroTrailingFwdM "trailing_pe" = some (.num 0) ∧
    signalPE zeroTrailingFwdM defaultThresholds = (0, 1, .highPE 50) ∧
    signalPE zeroTrailingFwdM defaultThresholds ≠ peEval (some (.num 0)) defaultThresholds := by
  refine ⟨by with_unfolding_all decide, by with_unfolding_all decide,
    by with_unfolding_all decide⟩

/-- C4 witness: the amended statement instantiated at the default
thresholds with a trailing P/E of 10. -/
theorem C4_witness :
    (mkM none none none (some (.num 10)) none "trailing_pe" = some (.num 10) →
      (PyVal.num 10).truthy = true →
      signalPE (mkM none none none (some (.num 10)) none) defaultThresholds =
        peEval (some (.num 10)) defaultThresholds) ∧
    (mkM none none none (some (.num 10)) none "trailing_pe" = none →
      signalPE (mkM none none none (some (.num 10)) none) defaultThresholds =
        peEval (mkM none none none (some (.num 10)) none "forward_pe") defaultThresholds) ∧
    ((10:ℚ) < 15 → peEval (some (.num 10)) defaultThresholds = (1, 0, .lowPE 10)) ∧
    (¬ (10:ℚ) < 15 → (40:ℚ) < 10 →
      peEval (some (.num 10)) defaultThresholds = (0, 1, .highPE 10)) ∧
    (¬ (10:ℚ) < 15 → ¬ (40:ℚ) < 10 →
      peEval (some (.num 10)) defaultThresholds = (0, 0, .peInRange 10)) ∧
    peEval none defaultThresholds = (0, 0, .peUnavailable) ∧
    peEval (some (.strBad "n/a")) defaultThresholds = (0, 0, .peParsingError) ∧
    Reason.peUnavailable ≠ Reason.peParsingError :=
  C4_theorem (mkM none none none (some (.num 10)) none) defaultThresholds 15 40 10
    (.num 10) "n/a" rfl rfl

end StockAnalyst

namespace StockAnalyst

/-- C3 counterexample: an empty thresholds override raises KeyError at the
sentiment signal, so decide_action does not return a Verdict for every
thresholds mapping. -/
theorem C3_counterexample :
    decide_action (fun _ => none) 0 "" (some []) = .error "KeyError: sentiment_good" := by
  with_unfolding_all decide

/-- C3 (amended): for metrics whose values are floats-or-null and a
thresholds argument that is either no override or a mapping containing all
8 threshold keys, decide_action always returns a Verdict — no exception
escapes. -/
theorem C3_theorem (m : MMap) (s : ℚ) (scr : String) (th? : Option ThMap)
    (hm : ∀ k, numOrNull (m k) = true)
    (hth : ∀ th, th? = some th → ∀ k ∈ thresholdKeys, (assocLookup th k).isSome = true) :
    ∃ v, decide_action m s scr th? = .ok v := by
  have hlk : ∀ k, k ∈ thresholdKeys → ∃ x, lookupTh (th?.getD defaultThresholds) k = .ok x := by
    intro k hk
    cases th? with
    | none =>
      simp only [Option.getD_none]
      simp only [thresholdKeys, List.mem_cons, List.not_mem_nil, or_false] at hk
      rcases hk with rfl | rfl | rfl | rfl | rfl | rfl | rfl | rfl <;> exact ⟨_, rfl⟩
    | some t =>
      simp only [Option.getD_some]
      have h2 := hth t rfl k hk
      unfold lookupTh
      rcases hal : assocLookup t k with _ | x
      · simp [hal] at h2
      · exact ⟨x, rfl⟩
  obtain ⟨glo, hglo⟩ := hlk "revenue_growth_good_pct" (by simp [thresholdKeys])
  obtain ⟨gbad, hgbad⟩ := hlk "revenue_growth_bad_pct" (by simp [thresholdKeys])
  obtain ⟨dlo, hdlo⟩ := hlk "debt_to_equity_good" (by simp [thresholdKeys])
  obtain ⟨dbad, hdbad⟩ := hlk "debt_to_equity_bad" (by simp [thresholdKeys])
  obtain ⟨sg, hsg⟩ := hlk "sentiment_good" (by simp [thresholdKeys])
  obtain ⟨sb, hsb⟩ := hlk "sentiment_bad" (by simp [thresholdKeys])
  obtain ⟨t1, e1⟩ : ∃ t, signalNI m = .ok t := by
    cases hv : m "net_income" with
    | none =>
      refine ⟨(0, 0, .netIncomeUnavailable), ?_⟩
      unfold signalNI
      rw [hv]
    | some v =>
      have hnum := hm "net_income"
      rw [hv] at hnum
      cases v with
      | num x =>
        refine ⟨if 0 < x then (1, 0, .posNetIncome) else (0, 1, .negNetIncome), ?_⟩
        unfold signalNI
        rw [hv]
        simp only [PyVal.asNum]
        split_ifs <;> rfl
      | strNum x => simp [numOrNull, PyVal.isNum] at hnum
      | strBad str => simp [numOrNull, PyVal.isNum] at hnum
  obtain ⟨t2, e2⟩ : ∃ t, signalRG m (th?.getD defaultThresholds) = .ok t := by
    cases hv : m "revenue_growth_pct" with
    | none =>
      refine ⟨(0, 0, .revenueGrowthUnavailable), ?_⟩
      unfold signalRG
      rw [hv]
    | some v =>
      have hnum := hm "revenue_growth_pct"
      rw [hv] at hnum
      cases v with
      | num x =>
        refine ⟨if glo < x then (1, 0, .revenueGrowth x)
          else if x < gbad then (0, 1, .revenueDecline x)
          else (0, 0, .revenueGrowthMuted x), ?_⟩
        unfold signalRG
        rw [hv]
        simp only [hglo, hgbad, PyVal.asNum]
        split_ifs <;> rfl
      | strNum x => simp [numOrNull, PyVal.isNum] at hnum
      | strBad str => simp [numOrNull, PyVal.isNum] at hnum
  obtain ⟨t3, e3⟩ : ∃ t, signalDE m (th?.getD defaultThresholds) = .ok t := by
    cases hv : m "debt_to_equity" with
    | none =>
      refine ⟨(0, 0, .debtEquityUnavailable), ?_⟩
      unfold signalDE
      rw [hv]
    | some v =>
      have hnum := hm "debt_to_equity"
      rw [hv] at hnum
      cases v with
      | num x =>
        refine ⟨if x < dlo then (1, 0, .lowLeverage x)
          else if dbad < x then (0, 1, .highLeverage x)
          else (0, 0, .moderateLeverage x), ?_⟩
        unfold signalDE
        rw [hv]
        simp only [hdlo, hdbad, PyVal.asNum]
        split_ifs <;> rfl
      | strNum x => simp [numOrNull, PyVal.isNum] at hnum
      | strBad str => simp [numOrNull, PyVal.isNum] at hnum
  obtain ⟨t4, e4⟩ : ∃ t, signalSent s (th?.getD defaultThresholds) = .ok t := by
    refine ⟨if sg < s then (1, 0, .positiveSentiment s)
      else if s < sb then (0, 1, .negativeSentiment s)
      else (0, 0, .neutralSentiment s), ?_⟩
    unfold signalSent
    simp only [hsg, hsb]
    split_ifs <;> rfl
  refine ⟨combineSignals t1 t2 t3 t4
    (signalPE m (th?.getD defaultThresholds)) scr, ?_⟩
  simp [decide_action, e1, e2, e3, e4]

/-- C3 witness: all-null metrics with the default thresholds. -/
theorem C3_witness : ∃ v, decide_action (fun _ => none) 0 "" none = .ok v :=
  C3_theorem (fun _ => none) 0 "" none (fun _ => rfl) (fun _ h => nomatch h)

end StockAnalyst

namespace StockAnalyst

lemma d2eOf_none_left (e : Option ℚ) : d2eOf none e = none := by cases e <;> rfl

lemma d2eOf_none_right (a : Option ℚ) : d2eOf a none = none := by cases a <;> rfl

lemma d2eOf_zero (a : Option ℚ) : d2eOf a (some 0) = none := by
  cases a with
  | none => rfl
  | some x => simp [d2eOf]

lemma d2eOf_some (a e : ℚ) (he : e ≠ 0) : d2eOf (some a) (some e) = some (.num (a / e)) := by
  simp [d2eOf, he]

lemma D2EProp_none3 : D2EProp (none, none, none) := by
  refine ⟨fun _ => rfl, fun _ => rfl, fun e he h0 => ?_, fun a e ha he hne => ?_⟩
  · exact nomatch he
  · exact nomatch ha

lemma D2EProp_debt (debt : Option ℚ) : D2EProp (debt.map PyVal.num, none, none) := by
  refine ⟨fun _ => rfl, fun _ => rfl, fun e he h0 => ?_, fun a e ha he hne => ?_⟩
  · exact nomatch he
  · exact nomatch he

lemma D2EProp_full (debt equity : Option ℚ) :
    D2EProp (debt.map PyVal.num, equity.map PyVal.num, d2eOf debt equity) := by
  refine ⟨?_, ?_, ?_, ?_⟩
  · intro h1
    have hdn : debt = none := by
      cases debt with
      | none => rfl
      | some x => exact nomatch h1
    rw [hdn]
    exact d2eOf_none_left equity
  · intro h1
    have hen : equity = none := by
      cases equity with
      | none => rfl
      | some x => exact nomatch h1
    rw [hen]
    exact d2eOf_none_right debt
  · intro e he h0
    have heq : equity = some e := by
      cases equity with
      | none => exact nomatch he
      | some x =>
        simp only [Option.map_some'] at he
        injection he with h2
        injection h2 with h3
        rw [h3]
    rw [heq, h0]
    exact d2eOf_zero debt
  · intro a e ha he hne
    have hda : debt = some a := by
      cases debt with
      | none => exact nomatch ha
      | some x =>
        simp only [Option.map_some'] at ha
        injection ha with h2
        injection h2 with h3
        rw [h3]
    have hea : equity = some e := by
      cases equity with
      | none => exact nomatch he
      | some x =>
        simp only [Option.map_some'] at he
        injection he with h2
        injection h2 with h3
        rw [h3]
    rw [hda, hea]
    exact d2eOf_some a e hne

lemma balTriple_d2e_shape (b? : Option Frame) : D2EProp (balTriple b?) := by
  cases b? with
  | none => exact D2EProp_none3
  | some b =>
    by_cases he : b.isEmpty = true
    · rw [show balTriple (some b) = (none, none, none) from by simp [balTriple, he]]
      exact D2EProp_none3
    · cases hg1 : getRowVal b debtCandidates 0 with
      | error e1 =>
        rw [show balTriple (some b) = (none, none, none) from by
          simp [balTriple, he, hg1]]
        exact D2EProp_none3
      | ok td =>
        cases hg2 : getRowVal b equityCandidates 0 with
        | error e2 =>
          rw [show balTriple (some b) = (none, none, none) from by
            simp [balTriple, he, hg1, hg2]]
          exact D2EProp_none3
        | ok te =>
          cases ho1 : optFloat td with
          | error e3 =>
            rw [show balTriple (some b) = (none, none, none) from by
              simp [balTriple, he, hg1, hg2, ho1]]
            exact D2EProp_none3
          | ok debt =>
            cases ho2 : optFloat te with
            | error e4 =>
              rw [show balTriple (some b) = (debt.map PyVal.num, none, none) from by
                simp [balTriple, he, hg1, hg2, ho1, ho2]]
              exact D2EProp_debt debt
            | ok equity =>
              rw [show balTriple (some b) =
                  (debt.map PyVal.num, equity.map PyVal.num, d2eOf debt equity) from by
                simp [balTriple, he, hg1, hg2, ho1, ho2]]
              exact D2EProp_full debt equity

end StockAnalyst

namespace StockAnalyst

lemma find?_pred {α : Type} (l : List α) (p : α → Bool) (c : α)
    (h : l.find? p = some c) : p c = true :=
  List.find?_some h

lemma assocLookup_mem {α : Type} (l : List (String × α)) (k : String) (v : α)
    (h : assocLookup l k = some v) : (k, v) ∈ l := by
  induction l with
  | nil => exact nomatch h
  | cons hd tl ih =>
    rcases hd with ⟨k1, v1⟩
    unfold assocLookup at h
    by_cases hk : k1 = k
    · rw [if_pos hk] at h
      injection h with h2
      subst h2
      subst hk
      exact List.mem_cons_self _ _
    · rw [if_neg hk] at h
      exact List.mem_cons_of_mem _ (ih h)

lemma assocLookup_isSome_ne_nil {α : Type} (l : List (String × α)) (k : String)
    (h : (assocLookup l k).isSome = true) : l ≠ [] := by
  intro hnil
  subst hnil
  simp [assocLookup] at h

lemma getRowVal_shape (f : Frame) (cands : List String) (hr : f.rect = true)
    (hn : f.allNum = true) (hc : 0 < f.cols) :
    getRowVal f cands 0 = .ok none ∨
    ∃ x : ℚ, getRowVal f cands 0 = .ok (some (.num x)) := by
  induction cands with
  | nil => exact Or.inl rfl
  | cons c rest ih =>
    unfold getRowVal
    cases hl : assocLookup f.rows c with
    | none => exact ih
    | some row =>
      have hmem : (c, row) ∈ f.rows := assocLookup_mem _ _ _ hl
      have hlen : row.length = f.cols := by
        have := List.all_eq_true.mp hr _ hmem
        simpa using this
      cases hq : row[0]? with
      | none =>
        have := List.getElem?_eq_none_iff.mp hq
        omega
      | some v =>
        have hvmem : v ∈ row := List.getElem?_mem hq
        have hnum2 : v.isNum = true := by
          have hrow := List.all_eq_true.mp hn _ hmem
          exact List.all_eq_true.mp hrow _ hvmem
        cases v with
        | num x =>
          refine Or.inr ⟨x, ?_⟩
          show (match row[0]? with
            | none => Except.error ()
            | some v => Except.ok (some v)) = Except.ok (some (PyVal.num x))
          rw [hq]
        | strNum x => simp [PyVal.isNum] at hnum2
        | strBad str => simp [PyVal.isNum] at hnum2

lemma finTriple_rgp (f : Frame) :
    (finTriple (some f)).2.2 = none ∨ (finTriple (some f)).2.2 = revenueGrowth f := by
  simp only [finTriple]
  repeat first | (left; rfl) | (right; rfl) | split

/-- C5 (amended): revenue_growth_pct is null whenever the financials table
has fewer than two periods, or the previous-period revenue is null or zero;
for a rectangular all-numeric table it otherwise equals
(most-recent - previous) / |previous| * 100.  debt_to_equity is null
whenever total_debt is null, total_equity is null or zero, and otherwise
equals total_debt / total_equity, with no restriction on the input. -/
theorem C5_theorem (d : CompanyData) (f : Frame) (p a qd qe : ℚ)
    (hd : d.financials = some f) :
    (f.cols < 2 → (extract_financial_metrics d).revenue_growth_pct = none) ∧
    (prevRevenue f = .ok none → (extract_financial_metrics d).revenue_growth_pct = none) ∧
    (prevRevenue f = .ok (some (.num 0)) →
      (extract_financial_metrics d).revenue_growth_pct = none) ∧
    (f.allNum = true → f.rect = true → 2 ≤ f.cols →
      prevRevenue f = .ok (some (.num p)) → p ≠ 0 →
      getRowVal f revCandidates 0 = .ok (some (.num a)) →
      (extract_financial_metrics d).revenue_growth_pct =
        some (.num ((a - p) / |p| * 100))) ∧
    ((extract_financial_metrics d).total_debt = none →
      (extract_financial_metrics d).debt_to_equity = none) ∧
    ((extract_financial_metrics d).total_equity = none →
      (extract_financial_metrics d).debt_to_equity = none) ∧
    ((extract_financial_metrics d).total_equity = some (.num 0) →
      (extract_financial_metrics d).debt_to_equity = none) ∧
    ((extract_financial_metrics d).total_debt = some (.num qd) →
      (extract_financial_metrics d).total_equity = some (.num qe) → qe ≠ 0 →
      (extract_financial_metrics d).debt_to_equity = some (.num (qd / qe))) := by
  have hx : (extract_financial_metrics d).revenue_growth_pct = (finTriple (some f)).2.2 := by
    simp [extract_financial_metrics, hd]
  obtain ⟨hb1, hb2, hb3, hb4⟩ := balTriple_d2e_shape d.balance_sheet
  refine ⟨?_, ?_, ?_, ?_, hb1, hb2, fun h => hb3 0 h rfl, fun h1 h2 => hb4 qd qe h1 h2⟩
  · intro hc
    rw [hx]
    rcases finTriple_rgp f with h | h
    · exact h
    · rw [h]
      unfold revenueGrowth
      rw [if_neg (by omega)]
  · intro hprev
    rw [hx]
    rcases finTriple_rgp f with h | h
    · exact h
    · rw [h]
      unfold revenueGrowth
      by_cases hc : 2 ≤ f.cols
      · rw [if_pos hc]
        cases hg : getRowVal f revCandidates 0 with
        | error e1 => simp [hg]
        | ok ov =>
          cases ov with
          | none => simp [hg]
          | some rNew => simp [hg, hprev]
      · rw [if_neg hc]
  · intro hprev
    rw [hx]
    rcases finTriple_rgp f with h | h
    · exact h
    · rw [h]
      unfold revenueGrowth
      by_cases hc : 2 ≤ f.cols
      · rw [if_pos hc]
        cases hg : getRowVal f revCandidates 0 with
        | error e1 => simp [hg]
        | ok ov =>
          cases ov with
          | none => simp [hg]
          | some rNew => simp [hg, hprev, PyVal.eqZero]
      · rw [if_neg hc]
  · intro hnum hrect hc hprev hp ha
    have hfind : ∃ c, revCandidates.find? (fun c => (assocLookup f.rows c).isSome) = some c := by
      rcases hf2 : revCandidates.find? (fun c => (assocLookup f.rows c).isSome) with _ | c
      · exfalso
        unfold prevRevenue at hprev
        rw [hf2] at hprev
        simp at hprev
      · exact ⟨c, rfl⟩
    obtain ⟨c, hcfind⟩ := hfind
    have hsat0 := find?_pred revCandidates (fun c2 => (assocLookup f.rows c2).isSome) c hcfind
    have hsat : (assocLookup f.rows c).isSome = true := hsat0
    have hrows : f.rows ≠ [] := assocLookup_isSome_ne_nil _ _ hsat
    have hemp : ¬ f.isEmpty = true := by
      have h2 : f.rows.isEmpty = false := by
        cases hr : f.rows with
        | nil => exact absurd hr hrows
        | cons x xs => rfl
      have h1 : (f.cols == 0) = false := by
        simp only [beq_eq_false_iff_ne, ne_eq]
        omega
      unfold Frame.isEmpty
      rw [h1, h2]
      simp
    have hrg2 : (finTriple (some f)).2.2 = revenueGrowth f := by
      rcases getRowVal_shape f netCandidates hrect hnum (by omega) with hnet | ⟨y, hnet⟩ <;>
        simp [finTriple, hemp, ha, hnet, optFloat, PyVal.toFloat]
    rw [hx, hrg2]
    unfold revenueGrowth
    rw [if_pos hc]
    simp [ha, hprev, PyVal.eqZero, hp, pySubDivAbs]

/-- C5 counterexample: a table with numeric revenue (10 most recent, 5
previous) but a non-numeric net-income cell leaves revenue_growth_pct null
although two periods exist and the previous revenue is non-null and
non-zero, where the claim predicts 100.0. -/
theorem C5_counterexample :
    badNetData.financials = some badNetFrame ∧
    badNetFrame.cols = 2 ∧
    prevRevenue badNetFrame = .ok (some (.num 5)) ∧
    getRowVal badNetFrame revCandidates 0 = .ok (some (.num 10)) ∧
    (extract_financial_metrics badNetData).revenue_growth_pct = none ∧
    (none : Option PyVal) ≠ some (.num ((10 - 5) / |(5:ℚ)| * 100)) := by
  refine ⟨rfl, rfl, ?_, ?_, ?_, ?_⟩ <;> with_unfolding_all decide

end StockAnalyst

namespace StockAnalyst

/-- C5 witness: a well-formed two-period numeric table. -/
theorem C5_witness :
    (growFrame.cols < 2 → (extract_financial_metrics growData).revenue_growth_pct = none) ∧
    (prevRevenue growFrame = .ok none →
      (extract_financial_metrics growData).revenue_growth_pct = none) ∧
    (prevRevenue growFrame = .ok (some (.num 0)) →
      (extract_financial_metrics growData).revenue_growth_pct = none) ∧
    (growFrame.allNum = true → growFrame.rect = true → 2 ≤ growFrame.cols →
      prevRevenue growFrame = .ok (some (.num 10)) → (10:ℚ) ≠ 0 →
      getRowVal growFrame revCandidates 0 = .ok (some (.num 12)) →
      (extract_financial_metrics growData).revenue_growth_pct =
        some (.num ((12 - 10) / |(10:ℚ)| * 100))) ∧
    ((extract_financial_metrics growData).total_debt = none →
      (extract_financial_metrics growData).debt_to_equity = none) ∧
    ((extract_financial_metrics growData).total_equity = none →
      (extract_financial_metrics growData).debt_to_equity = none) ∧
    ((extract_financial_metrics growData).total_equity = some (.num 0) →
      (extract_financial_metrics growData).debt_to_equity = none) ∧
    ((extract_financial_metrics growData).total_debt = some (.num 1) →
      (extract_financial_metrics growData).total_equity = some (.num 1) → (1:ℚ) ≠ 0 →
      (extract_financial_metrics growData).debt_to_equity = some (.num (1 / 1))) :=
  C5_theorem growData growFrame 10 12 1 1 rfl

end StockAnalyst

namespace StockAnalyst

lemma abs_sum_le_length (l : List ℚ) (h : ∀ x ∈ l, |x| ≤ 1) :
    |l.sum| ≤ (l.length : ℚ) := by
  induction l with
  | nil => simp
  | cons x xs ih =>
    simp only [List.sum_cons, List.length_cons]
    have h1 : |x| ≤ 1 := h x (List.mem_cons_self _ _)
    have h2 : |xs.sum| ≤ (xs.length : ℚ) := ih (fun y hy => h y (List.mem_cons_of_mem _ hy))
    calc |x + xs.sum| ≤ |x| + |xs.sum| := abs_add _ _
      _ ≤ 1 + (xs.length : ℚ) := add_le_add h1 h2
      _ = ((xs.length + 1 : ℕ) : ℚ) := by push_cast; ring

lemma fallbackAux_bound (hs : List String) :
    |(fallbackAux hs).1| ≤ ((fallbackAux hs).2 : ℚ) := by
  induction hs with
  | nil => simp [fallbackAux]
  | cons h rest ih =>
    unfold fallbackAux
    split
    · exact ih
    · next hc =>
      have hpos : (0 : ℚ) < ((headlineHits h).1 : ℚ) + ((headlineHits h).2 : ℚ) := by
        have h0 : 0 < (headlineHits h).1 + (headlineHits h).2 := Nat.pos_of_ne_zero hc
        exact_mod_cast h0
      have hd : |(((headlineHits h).1 : ℚ) - ((headlineHits h).2 : ℚ)) /
          (((headlineHits h).1 : ℚ) + ((headlineHits h).2 : ℚ))| ≤ 1 := by
        rw [abs_div, abs_of_pos hpos]
        refine (div_le_one hpos).mpr ?_
        rw [abs_le]
        constructor
        · have hc1 := Nat.cast_nonneg (α := ℚ) (headlineHits h).1
          have hc2 := Nat.cast_nonneg (α := ℚ) (headlineHits h).2
          linarith
        · have hc2 := Nat.cast_nonneg (α := ℚ) (headlineHits h).2
          linarith
      calc |(fallbackAux rest).1 + (((headlineHits h).1 : ℚ) - ((headlineHits h).2 : ℚ)) /
            (((headlineHits h).1 : ℚ) + ((headlineHits h).2 : ℚ))|
          ≤ |(fallbackAux rest).1| + |(((headlineHits h).1 : ℚ) - ((headlineHits h).2 : ℚ)) /
            (((headlineHits h).1 : ℚ) + ((headlineHits h).2 : ℚ))| := abs_add _ _
        _ ≤ ((fallbackAux rest).2 : ℚ) + 1 := add_le_add ih hd
        _ = (((fallbackAux rest).2 + 1 : ℕ) : ℚ) := by push_cast; ring

/-- C8: score_news_sentiment always returns a value in [-1, 1] — on the
fallback path unconditionally, and on the primary path under the hypothesis
that the external analyzer's compound scores lie in [-1, 1] — and returns
exactly 0.0 on the empty headline list on both paths. -/
theorem C8_theorem (analyzer : Option (String → ℚ)) (headlines : List String)
    (hb : ∀ a, analyzer = some a → ∀ h, |a h| ≤ 1) :
    (-1 ≤ score_news_sentiment analyzer headlines ∧
      score_news_sentiment analyzer headlines ≤ 1) ∧
    score_news_sentiment analyzer [] = 0 := by
  constructor
  · have habs : |score_news_sentiment analyzer headlines| ≤ 1 := by
      cases analyzer with
      | none =>
        simp only [score_news_sentiment]
        split
        · simp
        · split
          · simp
          · next h0 =>
            have hb2 := fallbackAux_bound headlines
            have hcpos : (0 : ℚ) < ((fallbackAux headlines).2 : ℚ) := by
              exact_mod_cast Nat.pos_of_ne_zero h0
            rw [abs_div, abs_of_pos hcpos]
            exact (div_le_one hcpos).mpr hb2
      | some a =>
        simp only [score_news_sentiment]
        split
        · simp
        · split
          · simp
          · next hsc =>
            have hall : ∀ x ∈ (headlines.filter (fun h => h ≠ "")).map a, |x| ≤ 1 := by
              intro x hx
              rcases List.mem_map.mp hx with ⟨h, hh, rfl⟩
              exact hb a rfl h
            have hsum := abs_sum_le_length _ hall
            have hlpos : (0 : ℚ) <
                ((((headlines.filter (fun h => h ≠ "")).map a).length : ℕ) : ℚ) := by
              have hne : ((headlines.filter (fun h => h ≠ "")).map a) ≠ [] := by
                intro hnil
                rw [List.isEmpty_iff] at hsc
                exact hsc hnil
              have := List.length_pos.mpr hne
              exact_mod_cast this
            rw [abs_div, abs_of_pos hlpos]
            exact (div_le_one hlpos).mpr hsum
    exact abs_le.mp habs
  · cases analyzer <;> rfl

/-- C8 witness: a constant bounded analyzer on one headline. -/
theorem C8_witness :
    (-1 ≤ score_news_sentiment (some (fun _ => 1/2)) ["Fed holds rates steady"] ∧
      score_news_sentiment (some (fun _ => 1/2)) ["Fed holds rates steady"] ≤ 1) ∧
    score_news_sentiment (some (fun _ => 1/2)) [] = 0 :=
  C8_theorem (some (fun _ => 1/2)) ["Fed holds rates steady"]
    (fun a ha h => by
      cases ha
      rw [abs_of_pos (by norm_num : (0:ℚ) < 1/2)]
      norm_num)

end StockAnalyst

namespace StockAnalyst

lemma sigRG_override (m : MMap) : signalRG m sentOverride = signalRG m defaultThresholds := by
  unfold signalRG
  simp only [show lookupTh sentOverride "revenue_growth_good_pct" =
      lookupTh defaultThresholds "revenue_growth_good_pct" from rfl,
    show lookupTh sentOverride "revenue_growth_bad_pct" =
      lookupTh defaultThresholds "revenue_growth_bad_pct" from rfl]

lemma sigDE_override (m : MMap) : signalDE m sentOverride = signalDE m defaultThresholds := by
  unfold signalDE
  simp only [show lookupTh sentOverride "debt_to_equity_good" =
      lookupTh defaultThresholds "debt_to_equity_good" from rfl,
    show lookupTh sentOverride "debt_to_equity_bad" =
      lookupTh defaultThresholds "debt_to_equity_bad" from rfl]

lemma sigPE_override (m : MMap) : signalPE m sentOverride = signalPE m defaultThresholds := by
  unfold signalPE peEval
  simp only [show lookupTh sentOverride "pe_low" =
      lookupTh defaultThresholds "pe_low" from rfl,
    show lookupTh sentOverride "pe_high" =
      lookupTh defaultThresholds "pe_high" from rfl]

lemma sigSent_ok (s : ℚ) (th : ThMap) (g b : ℚ)
    (hg : lookupTh th "sentiment_good" = .ok g)
    (hb2 : lookupTh th "sentiment_bad" = .ok b) :
    ∃ p n r, signalSent s th = .ok (p, n, r) := by
  refine ⟨if g < s then 1 else 0,
    if g < s then 0 else if s < b then 1 else 0,
    if g < s then .positiveSentiment s
      else if s < b then .negativeSentiment s else .neutralSentiment s, ?_⟩
  unfold signalSent
  simp only [hg, hb2]
  split_ifs <;> rfl

/-- C9: running decide_action with the default thresholds and with the
mapping that changes only sentiment_good to 0.5 either raises identically,
or produces verdicts whose reason lists agree at the four non-sentiment
positions and whose pos/neg counts differ only by each run's sentiment
contribution over a shared base; the sentiment reason sits at index 3. -/
theorem C9_theorem (m : MMap) (s : ℚ) (scr : String) :
    (∃ e, decide_action m s scr none = .error e ∧
      decide_action m s scr (some sentOverride) = .error e) ∨
    (∃ v vO p4 n4 r4 p4O n4O r4O bp bn,
      decide_action m s scr none = .ok v ∧
      decide_action m s scr (some sentOverride) = .ok vO ∧
      signalSent s defaultThresholds = .ok (p4, n4, r4) ∧
      signalSent s sentOverride = .ok (p4O, n4O, r4O) ∧
      v.reasons.take 3 = vO.reasons.take 3 ∧
      v.reasons.drop 4 = vO.reasons.drop 4 ∧
      v.reasons.length = 5 ∧ vO.reasons.length = 5 ∧
      v.reasons[3]? = some r4 ∧ vO.reasons[3]? = some r4O ∧
      v.pos_signals = bp + p4 ∧ vO.pos_signals = bp + p4O ∧
      v.neg_signals = bn + n4 ∧ vO.neg_signals = bn + n4O ∧
      v.script = vO.script) := by
  obtain ⟨p4, n4, r4, e4⟩ := sigSent_ok s defaultThresholds (3/20) (-(3/20)) rfl rfl
  obtain ⟨p4O, n4O, r4O, e4O⟩ := sigSent_ok s sentOverride (1/2) (-(3/20)) rfl rfl
  cases h1 : signalNI m with
  | error e =>
    left
    exact ⟨e, by simp [decide_action, h1], by simp [decide_action, h1]⟩
  | ok t1 =>
    cases h2 : signalRG m defaultThresholds with
    | error e =>
      left
      have h2O : signalRG m sentOverride = .error e := by rw [sigRG_override]; exact h2
      exact ⟨e, by simp [decide_action, h1, h2], by simp [decide_action, h1, h2O]⟩
    | ok t2 =>
      have h2O : signalRG m sentOverride = .ok t2 := by rw [sigRG_override]; exact h2
      cases h3 : signalDE m defaultThresholds with
      | error e =>
        left
        have h3O : signalDE m sentOverride = .error e := by rw [sigDE_override]; exact h3
        exact ⟨e, by simp [decide_action, h1, h2, h3], by simp [decide_action, h1, h2O, h3O]⟩
      | ok t3 =>
        have h3O : signalDE m sentOverride = .ok t3 := by rw [sigDE_override]; exact h3
        have hpe : signalPE m sentOverride = signalPE m defaultThresholds := sigPE_override m
        right
        refine ⟨combineSignals t1 t2 t3 (p4, n4, r4) (signalPE m defaultThresholds) scr,
          combineSignals t1 t2 t3 (p4O, n4O, r4O) (signalPE m defaultThresholds) scr,
          p4, n4, r4, p4O, n4O, r4O,
          t1.1 + t2.1 + t3.1 + (signalPE m defaultThresholds).1,
          t1.2.1 + t2.2.1 + t3.2.1 + (signalPE m defaultThresholds).2.1,
          ?_, ?_, e4, e4O, rfl, rfl, rfl, rfl, rfl, rfl, ?_, ?_, ?_, ?_, rfl⟩
        · simp [decide_action, h1, h2, h3, e4]
        · simp [decide_action, h1, h2O, h3O, e4O, hpe]
        · simp only [combineSignals]
          omega
        · simp only [combineSignals]
          omega
        · simp only [combineSignals]
          omega
        · simp only [combineSignals]
          omega

end StockAnalyst
